import Mathlib

/-!
Shallow embedding of the build-orchestrator parts of the GameForgeAi backend
(ProjectsService and TemplatesService, TypeScript/NestJS source) together with
theorems settling the frozen claims C1..C10.

Conventions of the embedding:
* Mongo documents become Lean structures; `undefined` fields become `Option`.
* JavaScript string falsiness (empty string is falsy) is modelled by the
  explicit helpers `jsOrStr` and `jsOrOptStr`.
* `String.prototype.trim` is modelled by `jsTrim` (drop whitespace at both
  ends); for the ASCII data handled here this coincides with the JS builtin.
* Async control flow is sequential in the source (one `await` chain per job),
  so it is embedded as plain sequential code; thrown exceptions become
  `Except` values.
-/

namespace GameForge

/-- JS `a || b` for strings: empty string is falsy. -/
def jsOrStr (a b : String) : String :=
  if a = "" then b else a

/-- JS `a || b` where `a` is a possibly-undefined string field: `undefined`
and the empty string are falsy. -/
def jsOrOptStr (a b : Option String) : Option String :=
  match a with
  | some s => if s = "" then b else some s
  | none => b

/-- JS truthiness of a possibly-undefined string (used for `if (!desired)`
style tests in the source). -/
def truthyStr : Option String → Bool
  | some s => s ≠ ""
  | none => false

/-- Character-list version of `trim`: drop whitespace at both ends. -/
def trimChars (cs : List Char) : List Char :=
  ((cs.dropWhile Char.isWhitespace).reverse.dropWhile Char.isWhitespace).reverse

/-- JS `String.prototype.trim`, modelled directly on the character list. -/
def jsTrim (s : String) : String :=
  ⟨trimChars s.data⟩

/-- JS `String.prototype.toLowerCase`, modelled on the character list (the
data handled here is ASCII, where the two functions agree). -/
def asciiLower (s : String) : String :=
  ⟨s.data.map Char.toLower⟩

/-- Job status enumeration of a `GameProject` document
(`queued | running | ready | failed`). -/
inductive Status where
  | queued
  | running
  | ready
  | failed
deriving DecidableEq, Repr

/-- The lowercase string stored in Mongo for each status value. -/
def Status.str : Status → String
  | .queued => "queued"
  | .running => "running"
  | .ready => "ready"
  | .failed => "failed"

/-- The fields of a `GameProject` document used by the build orchestrator.
Fields not consulted by any claim (timestamps, media URLs, name, description,
`buildTimings`, `buildLogLastLine`) are omitted. -/
structure Project where
  id : String
  ownerId : String
  status : Status
  error : Option String
  buildTarget : String
  resultStorageKey : Option String
  androidApkStorageKey : Option String
  webglZipStorageKey : Option String
  webglIndexStorageKey : Option String
deriving DecidableEq, Repr

/-- The NestJS exceptions thrown by the service layer. -/
inductive ApiErr where
  | notFound (msg : String)
  | forbidden
  | badRequest (msg : String)
deriving DecidableEq, Repr

/-- `((project as any).buildTarget || 'webgl').toString().trim().toLowerCase()`
as computed in `rebuild`, `runBuild` and `getDownloadUrl`. -/
def effectiveTarget (bt : String) : String :=
  asciiLower (jsTrim (jsOrStr bt "webgl"))

/-- `target === 'android_apk' || target === 'android'` test of the source. -/
def isAndroidApkTarget (bt : String) : Bool :=
  effectiveTarget bt = "android_apk" || effectiveTarget bt = "android"

/-- Result data returned by `cancelBuild`: the saved project, the status
echoed back to the caller, and whether a registered live process handle was
killed. -/
structure CancelOutcome where
  project : Project
  returnedStatus : Status
  killedProcess : Bool
deriving DecidableEq, Repr

/-- `ProjectsService.cancelBuild` (src/unnamed/part_010 lines 280-308).
The Mongo lookup is the environment: the found document is the argument and
the `NotFoundException` branch is outside the model. `hasHandle` states
whether `activeBuildProcesses` holds a live process for this job id.
The `buildTimings.finishedAt` bookkeeping write is omitted. -/
def cancelBuild (ownerId : String) (p : Project) (hasHandle : Bool) :
    Except ApiErr CancelOutcome :=
  if p.ownerId ≠ ownerId then .error .forbidden
  else
    let st := asciiLower p.status.str
    if ¬ (st = "queued" ∨ st = "running") then
      .ok { project := p, returnedStatus := p.status, killedProcess := false }
    else
      let p1 := { p with status := Status.failed, error := some "Cancelled by user" }
      .ok { project := p1, returnedStatus := p1.status, killedProcess := hasHandle }

/-- `ProjectsService.rebuild` (src/unnamed/part_010 lines 442-465): reset
status and error, clear the result refs of the effective build target, keep
the refs of the other target, and re-enqueue. The source performs no check of
the current status. The fire-and-forget `runBuild` kickoff and the
`buildTimings` reset are outside the returned document model. -/
def rebuild (ownerId : String) (p : Project) : Except ApiErr Project :=
  if p.ownerId ≠ ownerId then .error .forbidden
  else
    let p1 := { p with status := Status.queued, error := none }
    let p2 :=
      if isAndroidApkTarget p.buildTarget then
        { p1 with resultStorageKey := none, androidApkStorageKey := none }
      else
        { p1 with resultStorageKey := none, webglIndexStorageKey := none,
                  webglZipStorageKey := none }
    .ok p2

/-- The `desired` key computation of `ProjectsService.getDownloadUrl`
(src/unnamed/part_010 lines 407-413): normalize the requested target and
pick the target-specific key with the generic `resultStorageKey` as the JS
`||` fallback. -/
def desiredKey (p : Project) (target : Option String) : Option String :=
  let t := asciiLower (jsTrim (target.getD ""))
  if t = "android_apk" ∨ t = "android" then
    jsOrOptStr p.androidApkStorageKey p.resultStorageKey
  else if t = "webgl" then
    jsOrOptStr p.webglZipStorageKey p.resultStorageKey
  else p.resultStorageKey

/-- `ProjectsService.getDownloadUrl` (src/unnamed/part_010 lines 399-421),
returning the chosen storage key (the served URL is
`baseUrl + '/api/projects/files/' + encodeURIComponent(key)`, a bijective
wrapper around the key, so the key determines the artifact). -/
def getDownloadUrl (ownerId : String) (p : Project) (target : Option String) :
    Except ApiErr String :=
  if p.ownerId ≠ ownerId then .error .forbidden
  else if p.status ≠ Status.ready then .error (.badRequest "Project not ready")
  else
    let desired := desiredKey p target
    if ¬ truthyStr desired then .error (.badRequest "Artifact not available")
    else .ok (desired.getD "")

deriving instance DecidableEq for Except

/-- Environment of one `ProjectsService.runBuild` execution: the outcome of
every step of the pipeline that can vary (filesystem state, external process
results). Steps the source performs unconditionally and whose own failure
modes no claim concerns (workdir creation, script injection, asset injection,
the ensure-burst manifest patch, workdir cleanup) are abstracted as
succeeding. -/
structure RunEnv where
  /-- `templateModel.findById` found the template document. -/
  templateExists : Bool
  /-- Copying and extracting the stored template archive with AdmZip raised
  no error (false models a malformed stored archive at build time). -/
  extractOk : Bool
  /-- `fs.existsSync(cachedLibraryAbs)`: a Library cache entry exists for the
  sanitized template key. -/
  cacheEntryExists : Bool
  /-- `fs.existsSync(unityLibraryAbs)` before restore: the sandbox already
  has a Library directory. -/
  sandboxLibraryExists : Bool
  /-- The recursive copy of the cache restore step throws. -/
  restoreCopyFails : Bool
  /-- `process.env.UNITY_EDITOR_PATH` is set and non-blank. -/
  unityEditorPathSet : Bool
  /-- Result of the primary build invocation of `runUnity` (error carries the
  constructed failure message). -/
  primaryBuild : Except String Unit
  /-- Result of the `capture_media` invocation of `runUnity`. -/
  capture : Except String Unit
  /-- `fs.existsSync(unityLibraryAbs)` at cache-save time. -/
  libraryExistsAfterBuild : Bool
  /-- The rm/cp pair of the cache save step throws. -/
  saveCopyFails : Bool
  /-- Result of the whole guarded `upload_media` block (ffmpeg encoding plus
  cover/screenshot/video publication). -/
  mediaOutcome : Except String Unit
  /-- The expected build output (`index.html` for WebGL, the APK for
  Android) exists at verification time. -/
  outputExists : Bool
  /-- Result of the artifact publication after verification (per-file walk
  upload and zip upload for WebGL, APK upload for Android). -/
  publish : Except String Unit
deriving DecidableEq, Repr

/-- Observable events of one `runBuild` execution, used to state the claims
about intermediate behaviour. -/
structure RunTrace where
  /-- The job document was saved with `status = 'running'` (happens first,
  before extraction). -/
  reachedRunning : Bool
  /-- The cache restore copy was invoked (its guard held). -/
  restoreAttempted : Bool
  /-- The cache save rm/cp pair was invoked (its guard held). -/
  saveAttempted : Bool
  /-- The `upload_media` catch block swallowed an error. -/
  mediaErrorSwallowed : Bool
deriving DecidableEq, Repr

/-- The catch block of `runBuild` (src/unnamed/part_010 lines 2242-2257):
mark the job failed and store the message of the thrown error. -/
def failWith (p : Project) (msg : String) : Project :=
  { p with status := Status.failed, error := some msg }

/-- `ProjectsService.runBuild` (src/unnamed/part_010 lines 525-2265),
control-flow skeleton over a `RunEnv`. Mirrors the source order:
set running → load template → extract archive → (find root, ensure burst)
→ guarded cache restore → require `UNITY_EDITOR_PATH` → primary `runUnity`
→ `capture_media` `runUnity` → guarded cache save → guarded media encode and
upload → verify output → publish artifacts → set result refs and ready;
any error thrown on this path is caught and marks the job failed. -/
def runBuildGo (env : RunEnv) (p0 : Project) : Project × RunTrace :=
  let p := { p0 with status := Status.running, error := none }
  let tr0 : RunTrace :=
    { reachedRunning := true, restoreAttempted := false,
      saveAttempted := false, mediaErrorSwallowed := false }
  if ¬ env.templateExists then
    (failWith p "Template not found", tr0)
  else if ¬ env.extractOk then
    (failWith p "Invalid or unsupported zip format", tr0)
  else
    let restoreAttempted := env.cacheEntryExists && ! env.sandboxLibraryExists
    let tr1 := { tr0 with restoreAttempted := restoreAttempted }
    if ¬ env.unityEditorPathSet then
      (failWith p "UNITY_EDITOR_PATH env var is required to run Unity builds", tr1)
    else
      match env.primaryBuild with
      | .error msg => (failWith p msg, tr1)
      | .ok _ =>
        match env.capture with
        | .error msg => (failWith p msg, tr1)
        | .ok _ =>
          let tr2 := { tr1 with saveAttempted := env.libraryExistsAfterBuild }
          let tr3 :=
            { tr2 with
              mediaErrorSwallowed :=
                match env.mediaOutcome with
                | .error _ => true
                | .ok _ => false }
          if isAndroidApkTarget p0.buildTarget then
            if ¬ env.outputExists then
              (failWith p "Android build did not produce an APK", tr3)
            else
              match env.publish with
              | .error msg => (failWith p msg, tr3)
              | .ok _ =>
                ({ p with
                    resultStorageKey := some (p0.id ++ ".apk"),
                    androidApkStorageKey := some (p0.id ++ ".apk"),
                    status := Status.ready }, tr3)
          else
            if ¬ env.outputExists then
              (failWith p "WebGL build did not produce index.html", tr3)
            else
              match env.publish with
              | .error msg => (failWith p msg, tr3)
              | .ok _ =>
                ({ p with
                    resultStorageKey := some (p0.id ++ ".zip"),
                    webglZipStorageKey := some (p0.id ++ ".zip"),
                    webglIndexStorageKey := some (p0.id ++ "/webgl/index.html"),
                    status := Status.ready }, tr3)

/-- An uploaded template archive as seen by `TemplatesService.uploadTemplate`:
the raw bytes, whether AdmZip can parse the buffer, and the entry count. -/
structure UploadedZip where
  bytes : List Nat
  parseOk : Bool
  numEntries : Nat
deriving DecidableEq, Repr

/-- Archive validation of `TemplatesService.uploadTemplate`
(src/src/templates/schemas/template-review.schema.ts lines 119-137): the
first two bytes must be the zip magic `0x50 0x4b` (with at least 4 bytes
total) and the parsed archive must have at least one entry; both checks run
before any storage write or sandbox work. -/
def validateTemplateArchive (z : UploadedZip) : Except ApiErr Unit :=
  if z.bytes.length < 4 ∨ z.bytes.get? 0 ≠ some 0x50 ∨ z.bytes.get? 1 ≠ some 0x4b then
    .error (.badRequest "Invalid zip file. Expected a .zip archive.")
  else if ¬ z.parseOk ∨ z.numEntries = 0 then
    .error (.badRequest "Invalid or unsupported zip format")
  else .ok ()

/-- Set a config field when the request supplied a value of the right type,
keep the current one otherwise (`if (typeof v === T) cur.f = v`). -/
def updField {α : Type} (v cur : Option α) : Option α :=
  match v with
  | some x => some x
  | none => cur

/-- Three-source priority pick of `createFromAi`
(`typeof init.f === T ? init.f : (typeof unityCfg.f === T ? unityCfg.f : dflt)`). -/
def pickCfg {α : Type} (a b : Option α) (dflt : α) : α :=
  match a with
  | some x => x
  | none =>
    match b with
    | some y => y
    | none => dflt

/-- The JS number 0.5 as a rational in lowest terms (written explicitly so
that kernel evaluation of comparisons with it can proceed). -/
def ratHalf : Rat := ⟨1, 2, by decide, Nat.coprime_one_left 2⟩

/-- The JS number 0.1 as a rational in lowest terms. -/
def ratTenth : Rat := ⟨1, 10, by decide, Nat.coprime_one_left 10⟩

/-- The seventeen AI-config fields shared by the two request DTOs
(`UpdateProjectDto`, src/src/projects/dto/update-project.dto.ts, and
`CreateProjectAiDto`, src/unnamed/part_011), by the `initialConfig` object
the controller assembles, and by the AI-drafted Unity config. A `some`
field is present with its declared type: for a request body that is what
survives the global `ValidationPipe` (`whitelist: true, transform: true`)
and the per-field `IsNumber`/`IsString`/`IsArray`/`IsBoolean` decorators —
acceptance at the public interface additionally requires the value checks
`dtoFieldsOk` below — and for the AI-drafted config it is a value that
passed the merge's `typeof` check. JS numbers are embedded as rationals
(the source never computes with them, it only copies and compares
them). -/
structure CfgBag where
  timeScale : Option Rat := none
  difficulty : Option Rat := none
  theme : Option String := none
  notes : Option String := none
  speed : Option Rat := none
  genre : Option String := none
  assetsType : Option String := none
  mechanics : Option (List String) := none
  primaryColor : Option String := none
  secondaryColor : Option String := none
  accentColor : Option String := none
  playerColor : Option String := none
  fogEnabled : Option Bool := none
  fogDensity : Option Rat := none
  cameraZoom : Option Rat := none
  gravityY : Option Rat := none
  jumpForce : Option Rat := none
deriving DecidableEq, Repr

/-- The bag with every field absent. -/
def CfgBag.empty : CfgBag := {}

/-- The `aiUnityConfig` object stored on a `GameProject` document. -/
structure AiUnityConfig where
  timeScale : Option Rat := none
  difficulty : Option Rat := none
  theme : Option String := none
  notes : Option String := none
  speed : Option Rat := none
  genre : Option String := none
  assetsType : Option String := none
  mechanics : Option (List String) := none
  primaryColor : Option String := none
  secondaryColor : Option String := none
  accentColor : Option String := none
  playerColor : Option String := none
  fogEnabled : Option Bool := none
  fogDensity : Option Rat := none
  cameraZoom : Option Rat := none
  gravityY : Option Rat := none
  jumpForce : Option Rat := none
deriving DecidableEq, Repr

/-- The stored config with every field absent (a project without
`aiUnityConfig`). -/
def AiUnityConfig.empty : AiUnityConfig := {}

/-- The character class `[0-9a-fA-F]` of the hex-color regex. -/
def hexDigitChars : List Char :=
  ['0', '5', 'a', 'A', '1', '6', 'b', 'B', '2', '7', 'c', 'C',
   '3', '8', 'd', 'D', '4', '9', 'e', 'E', 'f', 'F']

/-- Membership in `[0-9a-fA-F]`. -/
def isHexDigitChar (c : Char) : Bool :=
  hexDigitChars.contains c

/-- The regex `/^#[0-9a-fA-F]{6}$/` of `normHex`. -/
def hexColorTest (s : String) : Bool :=
  match s.data with
  | '#' :: rest => rest.length = 6 && rest.all isHexDigitChar
  | _ => false

/-- JS `String.prototype.toUpperCase` restricted to ASCII (the only inputs it
receives here are `#` and hex digits). -/
def asciiUpperChar (c : Char) : Char :=
  match c with
  | 'a' => 'A' | 'b' => 'B' | 'c' => 'C' | 'd' => 'D' | 'e' => 'E' | 'f' => 'F'
  | 'g' => 'G' | 'h' => 'H' | 'i' => 'I' | 'j' => 'J' | 'k' => 'K' | 'l' => 'L'
  | 'm' => 'M' | 'n' => 'N' | 'o' => 'O' | 'p' => 'P' | 'q' => 'Q' | 'r' => 'R'
  | 's' => 'S' | 't' => 'T' | 'u' => 'U' | 'v' => 'V' | 'w' => 'W' | 'x' => 'X'
  | 'y' => 'Y' | 'z' => 'Z'
  | other => other

/-- ASCII uppercase of a whole string. -/
def asciiUpper (s : String) : String :=
  ⟨s.data.map asciiUpperChar⟩

/-- The `normHex` closure of `ProjectsService.update`
(src/unnamed/part_010 lines 355-362): trim, fix a missing leading hash on a
6-character value, test `/^#[0-9a-fA-F]{6}$/`, and uppercase the result;
anything else yields `undefined`. -/
def normHex (v : Option String) : Option String :=
  match v with
  | none => none
  | some v0 =>
    let s0 := jsTrim v0
    if s0 = "" then none
    else
      let s :=
        if ¬ (s0.data.head? = some '#') ∧ s0.length = 6 then "#" ++ s0 else s0
      if hexColorTest s then some (asciiUpper s) else none

/-- Spec-side shape check: a valid `#RRGGBB` value whose hex digits are
case-normalized to uppercase (the shape the spec promises for every stored
hex-color field). -/
def isUpperHexColor (s : String) : Bool :=
  match s.data with
  | '#' :: rest =>
    rest.length = 6 &&
      rest.all (fun c =>
        List.contains
          ['0', '5', 'A', 'D', '1', '6', 'B', 'E', '2', '7',
           'C', 'F', '3', '8', '4', '9'] c)
  | _ => false

/-- The `hasAiUpdate` presence test of `ProjectsService.update`
(src/unnamed/part_010 lines 332-348). Note the source does not include
`playerColor` in this gate. -/
def hasAiUpdate (d : CfgBag) : Bool :=
  d.timeScale.isSome || d.difficulty.isSome || d.theme.isSome ||
  d.notes.isSome || d.speed.isSome || d.genre.isSome ||
  d.assetsType.isSome || d.mechanics.isSome || d.primaryColor.isSome ||
  d.secondaryColor.isSome || d.accentColor.isSome || d.fogEnabled.isSome ||
  d.fogDensity.isSome || d.cameraZoom.isSome || d.gravityY.isSome ||
  d.jumpForce.isSome

/-- The config merge body of `ProjectsService.update`
(src/unnamed/part_010 lines 350-392): numeric and boolean fields are copied
as supplied (no clamping), short string fields are trimmed, `mechanics` is
trimmed, filtered of empties and capped at 12, and each color field is
replaced only when `normHex` accepts the supplied value. -/
def applyAiUpdate (d : CfgBag) (cur : AiUnityConfig) : AiUnityConfig :=
  { timeScale := updField d.timeScale cur.timeScale
    difficulty := updField d.difficulty cur.difficulty
    theme := updField (d.theme.map jsTrim) cur.theme
    notes := updField (d.notes.map jsTrim) cur.notes
    speed := updField d.speed cur.speed
    genre := updField (d.genre.map jsTrim) cur.genre
    assetsType := updField (d.assetsType.map jsTrim) cur.assetsType
    mechanics :=
      updField
        (d.mechanics.map (fun ms =>
          (((ms.map jsTrim).filter (fun m => 0 < m.length)).take 12)))
        cur.mechanics
    primaryColor := updField (normHex d.primaryColor) cur.primaryColor
    secondaryColor := updField (normHex d.secondaryColor) cur.secondaryColor
    accentColor := updField (normHex d.accentColor) cur.accentColor
    playerColor := updField (normHex d.playerColor) cur.playerColor
    fogEnabled := updField d.fogEnabled cur.fogEnabled
    fogDensity := updField d.fogDensity cur.fogDensity
    cameraZoom := updField d.cameraZoom cur.cameraZoom
    gravityY := updField d.gravityY cur.gravityY
    jumpForce := updField d.jumpForce cur.jumpForce }

/-- The `aiUnityConfig` effect of `ProjectsService.update`: when any gated
field is present, merge into the current object (or `{}`), otherwise leave
the stored config untouched. -/
def updateProjectAiConfig (d : CfgBag) (curOpt : Option AiUnityConfig) :
    Option AiUnityConfig :=
  if hasAiUpdate d then some (applyAiUpdate d (curOpt.getD AiUnityConfig.empty))
  else curOpt

/-- The `mergedCfg` construction of `ProjectsService.createFromAi`
(src/unnamed/part_010 lines 198-223) which is stored verbatim as the new
`aiUnityConfig` (lines 238-256): caller `initialConfig` wins over the
AI-drafted config, which wins over hard-coded defaults; no field is clamped,
validated or case-normalized on this path. -/
def mergeInitialConfig (init unityCfg : CfgBag) : AiUnityConfig :=
  { timeScale := some (pickCfg init.timeScale unityCfg.timeScale 1)
    difficulty := some (pickCfg init.difficulty unityCfg.difficulty ratHalf)
    theme := some (pickCfg init.theme unityCfg.theme "default")
    notes := some (pickCfg init.notes unityCfg.notes "")
    speed := some (pickCfg init.speed unityCfg.speed 5)
    genre := some (pickCfg init.genre unityCfg.genre "platformer")
    assetsType := some (pickCfg init.assetsType unityCfg.assetsType "lowpoly")
    mechanics := updField init.mechanics unityCfg.mechanics
    primaryColor := some (pickCfg init.primaryColor unityCfg.primaryColor "#22C55E")
    secondaryColor := some (pickCfg init.secondaryColor unityCfg.secondaryColor "#3B82F6")
    accentColor := some (pickCfg init.accentColor unityCfg.accentColor "#F59E0B")
    playerColor := updField init.playerColor unityCfg.playerColor
    fogEnabled := updField init.fogEnabled unityCfg.fogEnabled
    fogDensity := updField init.fogDensity unityCfg.fogDensity
    cameraZoom := updField init.cameraZoom unityCfg.cameraZoom
    gravityY := updField init.gravityY unityCfg.gravityY
    jumpForce := updField init.jumpForce unityCfg.jumpForce }

/-- The hex-color test behind the `IsHexColor` decorator of the two request
DTOs: class-validator delegates to the validator library's `isHexColor`,
the regex `/^#?([0-9A-F]{3}|[0-9A-F]{4}|[0-9A-F]{6}|[0-9A-F]{8})$/i` — an
optional leading hash followed by 3, 4, 6 or 8 hex digits of either case.
It admits lowercase digits, a missing hash and short forms, none of which
is of the uppercase `#RRGGBB` shape. -/
def isHexColorLib (s : String) : Bool :=
  let ds :=
    match s.data with
    | '#' :: rest => rest
    | cs => cs
  (ds.length = 3 || ds.length = 4 || ds.length = 6 || ds.length = 8) &&
    ds.all isHexDigitChar

/-- `Min(lo)` and `Max(hi)` on an optional numeric DTO field: absent
passes, a supplied number must lie in `[lo, hi]`. -/
def numOk (v : Option Rat) (lo hi : Rat) : Bool :=
  match v with
  | none => true
  | some x => lo ≤ x && x ≤ hi

/-- `MaxLength(n)` on an optional string DTO field. -/
def strOk (v : Option String) (n : Nat) : Bool :=
  match v with
  | none => true
  | some s => s.length ≤ n

/-- `ArrayMaxSize(n)` on an optional array DTO field. -/
def arrOk (v : Option (List String)) (n : Nat) : Bool :=
  match v with
  | none => true
  | some xs => xs.length ≤ n

/-- `IsHexColor` on an optional color DTO field. -/
def hexOk (v : Option String) : Bool :=
  match v with
  | none => true
  | some s => isHexColorLib s

/-- The decorator value checks of the seventeen AI-config fields, identical
on `UpdateProjectDto` and `CreateProjectAiDto`: `timeScale` in `[0.5, 2]`,
`difficulty` in `[0, 1]`, `speed` in `[0, 20]`, `fogDensity` in `[0, 0.1]`,
`cameraZoom` in `[1, 30]`, `gravityY` in `[-50, 0]`, `jumpForce` in
`[0, 50]`, `theme` at most 40 characters, `notes` at most 500, `genre` and
`assetsType` at most 30, `mechanics` an array of at most 12 entries, the
four colors `IsHexColor`; `fogEnabled` carries only its boolean type check.
The global `ValidationPipe` (src/unnamed/part_013 lines 400-404) rejects a
request body violating any of them with HTTP 400 before the controller
runs. -/
def dtoFieldsOk (d : CfgBag) : Bool :=
  numOk d.timeScale ratHalf 2 &&
    (numOk d.difficulty 0 1 &&
    (strOk d.theme 40 &&
    (strOk d.notes 500 &&
    (numOk d.speed 0 20 &&
    (strOk d.genre 30 &&
    (strOk d.assetsType 30 &&
    (arrOk d.mechanics 12 &&
    (hexOk d.primaryColor &&
    (hexOk d.secondaryColor &&
    (hexOk d.accentColor &&
    (hexOk d.playerColor &&
    (numOk d.fogDensity 0 ratTenth &&
    (numOk d.cameraZoom 1 30 &&
    (numOk d.gravityY (-50) 0 &&
     numOk d.jumpForce 0 50))))))))))))))

/-- The `initialConfig` object assembled by `ProjectsController.aiCreate`
(src/unnamed/part_013 lines 78-97): the whitelisted `runtimeConfig` object
is spread first and then every one of these seventeen keys is written
explicitly from the validated DTO field; a JS object-literal property
always overwrites a key brought in by the spread (even with `undefined`),
so each modeled key carries exactly the validated DTO value and
`runtimeConfig` can contribute only other keys, which the `createFromAi`
merge never reads. -/
def aiCreateInitialConfig ( _rc d : CfgBag) : CfgBag :=
  { timeScale := d.timeScale
    difficulty := d.difficulty
    theme := d.theme
    notes := d.notes
    speed := d.speed
    genre := d.genre
    assetsType := d.assetsType
    mechanics := d.mechanics
    primaryColor := d.primaryColor
    secondaryColor := d.secondaryColor
    accentColor := d.accentColor
    playerColor := d.playerColor
    fogEnabled := d.fogEnabled
    fogDensity := d.fogDensity
    cameraZoom := d.cameraZoom
    gravityY := d.gravityY
    jumpForce := d.jumpForce }

/-- The `aiUnityConfig` stored by the AI-creation endpoint for an accepted
request: `createFromAi` merges the controller-assembled `initialConfig`
with the AI-drafted config and the hard-coded defaults and stores the
result verbatim (src/unnamed/part_010 lines 198-223 and 238-256), and the
patch-injection step later serializes it verbatim into the generated
runtime-config file. -/
def aiCreateStored (rc d unityCfg : CfgBag) : AiUnityConfig :=
  mergeInitialConfig (aiCreateInitialConfig rc d) unityCfg

/-- The public AI-creation endpoint seen through the global
`ValidationPipe`: a body violating a `CreateProjectAiDto` decorator is
rejected with HTTP 400 (`none`) and never reaches `createFromAi`; an
accepted body stores `aiCreateStored`. -/
def aiCreateEndpoint (rc d unityCfg : CfgBag) : Option AiUnityConfig :=
  if dtoFieldsOk d then some (aiCreateStored rc d unityCfg) else none

/-- The public project-update endpoint seen through the global
`ValidationPipe`: a body violating an `UpdateProjectDto` decorator is
rejected with HTTP 400 (`none`); an accepted body reaches
`ProjectsService.update`, whose `aiUnityConfig` effect is
`updateProjectAiConfig`. -/
def updateEndpoint (d : CfgBag) (curOpt : Option AiUnityConfig) :
    Option (Option AiUnityConfig) :=
  if dtoFieldsOk d then some (updateProjectAiConfig d curOpt) else none

/-- A filesystem entry of an extracted template tree: either a regular file
or a directory with an ordered child listing (the order `fs.readdir`
returns). -/
inductive FsEntry where
  | file (name : String)
  | dir (name : String) (children : List FsEntry)
deriving Repr

/-- Name of an entry. -/
def FsEntry.name : FsEntry → String
  | .file n => n
  | .dir n _ => n

/-- `dirent.isDirectory()`. -/
def FsEntry.isDirEntry : FsEntry → Bool
  | .file _ => false
  | .dir _ _ => true

/-- Child listing of an entry (empty for a regular file). -/
def FsEntry.entries : FsEntry → List FsEntry
  | .file _ => []
  | .dir _ es => es

mutual

/-- Number of entries of a subtree (termination measure for the BFS). -/
def FsEntry.size : FsEntry → Nat
  | .file _ => 1
  | .dir _ es => 1 + sizeOfEntries es

/-- Total size of a list of subtrees. -/
def sizeOfEntries : List FsEntry → Nat
  | [] => 0
  | e :: es => FsEntry.size e + sizeOfEntries es

end

/-- `fs.existsSync(path.join(dir, n))` over a child listing. -/
def hasEntryNamed (es : List FsEntry) (n : String) : Bool :=
  es.any (fun e => e.name = n)

/-- The marker test of root discovery: the directory contains entries named
`Assets`, `Packages` and `ProjectSettings`. -/
def hasMarkers (es : List FsEntry) : Bool :=
  hasEntryNamed es "Assets" && hasEntryNamed es "Packages" &&
    hasEntryNamed es "ProjectSettings"

/-- The children enqueued by the BFS: subdirectories only, with the junk
directory `__MACOSX` skipped. -/
def subdirsOf (es : List FsEntry) : List FsEntry :=
  es.filter (fun e => e.isDirEntry && e.name ≠ "__MACOSX")

/-- Termination measure: total size of the queued subtrees. -/
def qSize (q : List (FsEntry × Nat)) : Nat :=
  sizeOfEntries (q.map Prod.fst)

/-- The breadth-first search of `ProjectsService.runBuild` (find_unity_root,
src/unnamed/part_010 lines 580-614) and of `TemplatesService.uploadTemplate`
(template-review file lines 313-346): pop a queued directory, return it when
it holds all three markers, otherwise enqueue its non-junk subdirectories as
long as the popped depth is below `maxDepth = 3`. The `visited` set of the
source is omitted: in a filesystem tree every enqueued path is distinct, so
that set never suppresses a node. -/
def bfsLoop (q : List (FsEntry × Nat)) : Option FsEntry :=
  match q with
  | [] => none
  | (e, d) :: rest =>
    if hasMarkers e.entries then some e
    else if 3 ≤ d then bfsLoop rest
    else bfsLoop (rest ++ (subdirsOf e.entries).map (fun c => (c, d + 1)))
termination_by qSize q
decreasing_by
  all_goals
    have hsz : e.size = 1 + sizeOfEntries e.entries := by cases e <;> rfl
    have happ : ∀ a b : List FsEntry,
        sizeOfEntries (a ++ b) = sizeOfEntries a + sizeOfEntries b := by
      intro a b
      induction a with
      | nil => simp [sizeOfEntries]
      | cons x xs ih => simp [sizeOfEntries, ih]; omega
    have hfil : sizeOfEntries (subdirsOf e.entries) ≤ sizeOfEntries e.entries := by
      unfold subdirsOf
      induction e.entries with
      | nil => exact Nat.le_refl 0
      | cons x xs ih =>
        by_cases hx : (x.isDirEntry && x.name ≠ "__MACOSX") = true
        · simp only [List.filter_cons, if_pos hx, sizeOfEntries]; omega
        · simp only [List.filter_cons, if_neg hx, sizeOfEntries]
          have hs1 : 1 ≤ x.size := by
            cases x <;> (simp only [FsEntry.size]; omega)
          omega
  · simp only [qSize, List.map_cons, sizeOfEntries]
    omega
  · have hmap : (List.map (fun c => (c, d + 1)) (subdirsOf e.entries)).map Prod.fst
        = subdirsOf e.entries := by
      rw [List.map_map]
      exact List.map_id _
    simp only [qSize, List.map_cons, List.map_append, sizeOfEntries, hmap, happ]
    omega

/-- Root discovery (src/unnamed/part_010 lines 571-615): when the top-level
extraction directory itself holds the three markers it is used directly,
otherwise the BFS runs from it at depth 0, and when the BFS finds nothing the
top-level extraction directory is the fallback. -/
def findUnityRoot (root : FsEntry) : FsEntry :=
  if hasMarkers root.entries then root
  else
    match bfsLoop [(root, 0)] with
    | some u => u
    | none => root

/-- Spec-side enumeration: the directories at relative depth `k` below a
queued entry, left to right, descending only through non-junk
subdirectories and only while the absolute depth stays below the bound 3. -/
def levelsFrom : Nat → FsEntry × Nat → List FsEntry
  | 0, (e, _) => [e]
  | k + 1, (e, d) =>
    if 3 ≤ d then []
    else (subdirsOf e.entries).flatMap (fun c => levelsFrom k (c, d + 1))

/-- Spec-side breadth-first enumeration of a queue: all entries at relative
depth 0 in queue order, then all at depth 1, 2 and 3 — i.e. shallowest
first and left to right within a level. -/
def enumQ (q : List (FsEntry × Nat)) : List FsEntry :=
  q.flatMap (levelsFrom 0) ++ q.flatMap (levelsFrom 1) ++
    q.flatMap (levelsFrom 2) ++ q.flatMap (levelsFrom 3)

/-- The breadth-first, depth-bounded, left-to-right candidate enumeration of
an extracted template tree: the root, then its non-junk subdirectories in
listing order, then their subdirectories, down to depth 3. -/
def bfsEnum (root : FsEntry) : List FsEntry :=
  enumQ [(root, 0)]

/-- JS regex word character, `\w = [A-Za-z0-9_]` (`Char.isAlphanum` tests
exactly the ASCII letters and digits). -/
def isWordChar (c : Char) : Bool :=
  c.isAlphanum || c = '_'

/-- Wordness of an optional character; out of string counts as non-word. -/
def wordOpt : Option Char → Bool
  | some c => isWordChar c
  | none => false

/-- Consume an exact literal prefix, returning the remainder. -/
def stripLit : List Char → List Char → Option (List Char)
  | [], cs => some cs
  | _ :: _, [] => none
  | l :: ls, c :: cs => if l = c then stripLit ls cs else none

/-- Consume `\s+` followed by a maximal run of further whitespace (every
pattern below continues with a non-space literal, so maximal munch is
equivalent to the regex). -/
def dropWs1 : List Char → Option (List Char)
  | c :: cs =>
    if c.isWhitespace then some (cs.dropWhile Char.isWhitespace) else none
  | [] => none

/-- Remainder after the first occurrence of a literal (`.*lit` matching). -/
def dropToAfter (l : List Char) : List Char → Option (List Char)
  | [] =>
    match stripLit l [] with
    | some r => some r
    | none => none
  | c :: cs2 =>
    match stripLit l (c :: cs2) with
    | some r => some r
    | none => dropToAfter l cs2

/-- Regex `/a.*b.*c/`-style test: the literals occur in order. -/
def seqContains : List Char → List (List Char) → Bool
  | _, [] => true
  | cs, l :: ls =>
    match dropToAfter l cs with
    | some r => seqContains r ls
    | none => false

/-- Try a position-wise matcher at every position of the line, tracking the
previous character for word boundaries. -/
def scanHits (f : Option Char → List Char → Bool) :
    Option Char → List Char → Bool
  | prev, cs =>
    f prev cs ||
      (match cs with
       | [] => false
       | c :: rest => scanHits f (some c) rest)

/-- `\bw\b` matcher at one position (for literals beginning and ending in
word characters). -/
def matchWordHere (w : List Char) (prev : Option Char) (cs : List Char) : Bool :=
  !(wordOpt prev) &&
    (match stripLit w cs with
     | some r => !(wordOpt r.head?)
     | none => false)

/-- Regex `/\bw\b/` over a whole line. -/
def containsWord (w : List Char) (cs : List Char) : Bool :=
  scanHits (matchWordHere w) none cs

/-- Regex `/w\b/` (right word boundary only, as in `/gradle\b/`). -/
def containsLitBoundary (w : List Char) (cs : List Char) : Bool :=
  scanHits
    (fun _ rest =>
      match stripLit w rest with
      | some r => !(wordOpt r.head?)
      | none => false)
    none cs

/-- Literals separated by `\s+` at one position. -/
def matchPartsHere : List (List Char) → List Char → Bool
  | [], _ => true
  | l :: ls, cs =>
    match stripLit l cs with
    | none => false
    | some r =>
      if ls.isEmpty then true
      else
        match dropWs1 r with
        | none => false
        | some r2 => matchPartsHere ls r2

/-- Regex `/l1\s+l2\s+…/` over a whole line. -/
def containsSpaced (parts : List (List Char)) (cs : List Char) : Bool :=
  scanHits (fun _ rest => matchPartsHere parts rest) none cs

/-- Regex `/\berror\s+CS\d{4,5}\b/i` at one position (case already
lowered). -/
def matchErrorCSHere (prev : Option Char) (cs : List Char) : Bool :=
  !(wordOpt prev) &&
    (match stripLit "error".data cs with
     | none => false
     | some r1 =>
       match dropWs1 r1 with
       | none => false
       | some r2 =>
         match stripLit "cs".data r2 with
         | none => false
         | some r3 =>
           let ds := r3.takeWhile Char.isDigit
           let rest := r3.dropWhile Char.isDigit
           (ds.length = 4 || ds.length = 5) && !(wordOpt rest.head?))

/-- Regex `/debugger-agent:\s*unable to listen on/i` over a line. -/
def patDebuggerAgent (cs : List Char) : Bool :=
  scanHits
    (fun _ rest =>
      match stripLit "debugger-agent:".data rest with
      | none => false
      | some r =>
        (stripLit "unable to listen on".data
          (r.dropWhile Char.isWhitespace)).isSome)
    none cs

/-- The pattern battery of `extractUnityErrorSummary`
(src/unnamed/part_010 lines 1851-1876), applied to a trimmed line; every
regex carries the `i` flag, embedded here by lowering the line first and
using lowercase literals. -/
def isInterestingLine (t : String) : Bool :=
  let cs := (asciiLower t).data
  scanHits matchErrorCSHere none cs ||
  containsWord "exception".data cs ||
  patDebuggerAgent cs ||
  containsSpaced ["android".data, "sdk".data] cs ||
  containsSpaced ["android".data, "ndk".data] cs ||
  containsSpaced ["java".data, "home".data] cs ||
  containsSpaced ["jre".data, "not".data, "found".data] cs ||
  seqContains cs ["unable to find".data, "java".data] ||
  containsLitBoundary "gradle".data cs ||
  seqContains cs ["failed to run command".data, "gradle".data] ||
  seqContains cs ["build tools".data, "not found".data] ||
  seqContains cs ["sdk".data, "not".data, "found".data] ||
  seqContains cs ["ndk".data, "not".data, "found".data] ||
  seqContains cs ["license".data, "not accepted".data] ||
  seqContains cs ["keystore".data] ||
  seqContains cs ["scripts have compiler errors".data] ||
  seqContains cs ["compilation failed".data] ||
  seqContains cs ["aborting batchmode".data] ||
  containsWord "build failed".data cs ||
  containsWord "fatal".data cs

/-- JS `s.split(/\r?\n/)` on the character list. -/
def splitLinesChars : List Char → List (List Char)
  | [] => [[]]
  | '\r' :: '\n' :: rest => [] :: splitLinesChars rest
  | '\n' :: rest => [] :: splitLinesChars rest
  | c :: rest =>
    match splitLinesChars rest with
    | [] => [[c]]
    | l :: ls => (c :: l) :: ls

/-- JS `s.split(/\r?\n/)`. -/
def jsSplitLines (s : String) : List String :=
  (splitLinesChars s.data).map (fun cs => ⟨cs⟩)

/-- JS `l.slice(Math.max(0, l.length - n))`: the last `n` elements. -/
def lastN {α : Type} (n : Nat) (l : List α) : List α :=
  l.drop (l.length - n)

/-- JS `s.slice(s.length - n)` on strings (ASCII lengths assumed, as
everywhere in this embedding). -/
def jsLastChars (s : String) (n : Nat) : String :=
  ⟨s.data.drop (s.data.length - n)⟩

/-- The trimmed-and-interesting test applied to each tail line
(`const t = (l || '').trim(); if (!t) return false; return …patterns(t)`). -/
def lineIsInteresting (l : String) : Bool :=
  jsTrim l ≠ "" && isInterestingLine (jsTrim l)

/-- `extractUnityErrorSummary` (src/unnamed/part_010 lines 1845-1886): keep
the last 400 output lines, filter them by the pattern battery, join the last
60 of the filtered lines (or of the tail lines when nothing matched), clip
to the final 6000 characters, trim. The defensive outer try/catch of the
source cannot fire (the body is total) and is omitted. -/
def extractUnityErrorSummary (out : String) : String :=
  let lines := jsSplitLines out
  let tailLines := lastN 400 lines
  let interesting := tailLines.filter lineIsInteresting
  let base := if interesting.length ≠ 0 then interesting else tailLines
  let summary := String.intercalate "\n" (lastN 60 base)
  let clipped := if 6000 < summary.length then jsLastChars summary 6000 else summary
  jsTrim clipped

/-- JS `String(code)` for the `number | null` exit code of a closed child
process (a process killed by the timeout timer or by cancellation closes
with a `null` code). -/
def jsCodeStr : Option Int → String
  | some n => toString n
  | none => "null"

/-- The error message built by the `close` handler of `runUnity` for a
non-zero or killed exit (src/unnamed/part_010 lines 2009-2020). -/
def unityExitErrorMessage (code : Option Int) (stdout stderr : String) : String :=
  let out := jsOrStr stderr stdout
  let summary := extractUnityErrorSummary out
  let tail := if 4000 < out.length then jsLastChars out 4000 else out
  "Unity exited with code " ++ jsCodeStr code ++ ". " ++
    (if summary ≠ "" then "Error summary:\n" ++ summary
     else "Output tail: " ++ tail)

/-- The `close` handler of `runUnity` (src/unnamed/part_010 lines 1992-2021):
exit code 0 resolves, anything else — including the `null` code of a process
killed by the timeout timer armed at invocation start — rejects with the
constructed message. -/
def closeResult (code : Option Int) (stdout stderr : String) :
    Except String Unit :=
  if code = some 0 then .ok ()
  else .error (unityExitErrorMessage code stdout stderr)

/-- A freshly queued WebGL job (concrete fixture). -/
def pQueuedWeb : Project :=
  { id := "p1", ownerId := "u1", status := Status.queued, error := none,
    buildTarget := "webgl", resultStorageKey := none,
    androidApkStorageKey := none, webglZipStorageKey := none,
    webglIndexStorageKey := none }

/-- A ready job that was built for WebGL (concrete fixture). -/
def pReadyWeb : Project :=
  { pQueuedWeb with
      status := Status.ready
      resultStorageKey := some "p1.zip"
      webglZipStorageKey := some "p1.zip"
      webglIndexStorageKey := some "p1/webgl/index.html" }

/-- A currently running job (concrete fixture). -/
def pRunningWeb : Project :=
  { pQueuedWeb with status := Status.running }

/-- A job previously built for the web target whose build target was then
switched to the native package before a rebuild: web refs populated, native
ref absent (concrete fixture). -/
def pWebBuiltAndroidTarget : Project :=
  { pReadyWeb with buildTarget := "android_apk" }

/-- Environment of a fully successful build run (concrete fixture). -/
def envHappy : RunEnv :=
  { templateExists := true, extractOk := true, cacheEntryExists := false,
    sandboxLibraryExists := false, restoreCopyFails := false,
    unityEditorPathSet := true, primaryBuild := .ok (), capture := .ok (),
    libraryExistsAfterBuild := true, saveCopyFails := false,
    mediaOutcome := .ok (), outputExists := true, publish := .ok () }

/-- Failure message of a `capture_media` invocation that exited non-zero
(concrete fixture). -/
def captureFailMsg : String :=
  "Unity exited with code 1. Error summary:\nNo camera found for capture"

/-- An uploaded archive whose first two bytes are not the zip magic
(concrete fixture: a DOS-executable header). -/
def badMagicZip : UploadedZip :=
  { bytes := [0x4d, 0x5a, 0, 0, 0], parseOk := false, numEntries := 0 }

/-- 61 identical progress lines, none matching any error pattern
(concrete fixture). -/
def outEx61 : String :=
  String.intercalate "\n" (List.replicate 61 "all good")

/-- The last 60 of those 61 lines (concrete fixture). -/
def summaryEx60 : String :=
  String.intercalate "\n" (List.replicate 60 "all good")

/-- A request body whose only config field is a lowercase hash-prefixed hex
color, accepted by every decorator of `CreateProjectAiDto` (concrete
fixture). -/
def dtoLowerHex : CfgBag :=
  { primaryColor := some "#ab12cd" }

/-- An accepted request body carrying an in-range numeric, a hashless
lowercase hex color and a one-entry mechanics array (concrete fixture). -/
def dtoWit : CfgBag :=
  { timeScale := some 1
    primaryColor := some "ab12cd"
    mechanics := some ["jump"] }

theorem size_eq_one_add (e : FsEntry) : e.size = 1 + sizeOfEntries e.entries := by
  cases e <;> rfl

theorem sizeOfEntries_append (a b : List FsEntry) :
    sizeOfEntries (a ++ b) = sizeOfEntries a + sizeOfEntries b := by
  induction a with
  | nil => simp [sizeOfEntries]
  | cons e es ih => simp [sizeOfEntries, ih]; omega

theorem sizeOfEntries_filter_le (p : FsEntry → Bool) (es : List FsEntry) :
    sizeOfEntries (es.filter p) ≤ sizeOfEntries es := by
  induction es with
  | nil => simp
  | cons e es ih =>
    by_cases h : p e = true
    · simp [List.filter_cons, h, sizeOfEntries]; omega
    · simp only [List.filter_cons, if_neg h, sizeOfEntries]
      omega

theorem qSize_cons (e : FsEntry) (d : Nat) (rest : List (FsEntry × Nat)) :
    qSize ((e, d) :: rest) = e.size + qSize rest := rfl

theorem qSize_append_mapped (rest : List (FsEntry × Nat)) (l : List FsEntry)
    (d : Nat) :
    qSize (rest ++ l.map (fun c => (c, d))) = qSize rest + sizeOfEntries l := by
  simp only [qSize, List.map_append, sizeOfEntries_append, List.map_map]
  have : (Prod.fst ∘ fun c => ((c, d) : FsEntry × Nat)) = id := rfl
  rw [this, List.map_id]

theorem subdirs_size_lt (e : FsEntry) :
    sizeOfEntries (subdirsOf e.entries) < e.size := by
  have h1 := sizeOfEntries_filter_le
    (fun x => x.isDirEntry && x.name ≠ "__MACOSX") e.entries
  have h2 := size_eq_one_add e
  simp only [subdirsOf]
  omega


theorem levelsFrom_zero (e : FsEntry) (d : Nat) : levelsFrom 0 (e, d) = [e] := rfl

theorem levelsFrom_succ_ge (k : Nat) (e : FsEntry) (d : Nat) (h : 3 ≤ d) :
    levelsFrom (k + 1) (e, d) = [] := by
  simp [levelsFrom, h]

theorem levelsFrom_succ_lt (k : Nat) (e : FsEntry) (d : Nat) (h : d < 3) :
    levelsFrom (k + 1) (e, d) =
      (subdirsOf e.entries).flatMap (fun c => levelsFrom k (c, d + 1)) := by
  simp [levelsFrom, Nat.not_le.mpr h]

theorem levelsFrom_deep_nil (k : Nat) :
    ∀ (e : FsEntry) (d : Nat), 3 ≤ d + k → levelsFrom (k + 1) (e, d) = [] := by
  induction k with
  | zero =>
    intro e d h
    exact levelsFrom_succ_ge 0 e d (by omega)
  | succ k ih =>
    intro e d h
    by_cases hd : 3 ≤ d
    · exact levelsFrom_succ_ge (k + 1) e d hd
    · rw [levelsFrom_succ_lt (k + 1) e d (by omega)]
      have hall : ∀ c, levelsFrom (k + 1) (c, d + 1) = [] :=
        fun c => ih c (d + 1) (by omega)
      induction subdirsOf e.entries with
      | nil => rfl
      | cons c cs ihc => rw [List.flatMap_cons, hall c, List.nil_append, ihc]

theorem flatMap_nil_of_forall {α β : Type} (l : List α) (f : α → List β)
    (h : ∀ x, f x = []) : l.flatMap f = [] := by
  induction l with
  | nil => rfl
  | cons x xs ih => rw [List.flatMap_cons, h x, List.nil_append, ih]

theorem enumQ_cons (e : FsEntry) (d : Nat) (rest : List (FsEntry × Nat)) :
    enumQ ((e, d) :: rest) =
      e :: (rest.flatMap (levelsFrom 0) ++
        (levelsFrom 1 (e, d) ++ (rest.flatMap (levelsFrom 1) ++
          (levelsFrom 2 (e, d) ++ (rest.flatMap (levelsFrom 2) ++
            (levelsFrom 3 (e, d) ++ rest.flatMap (levelsFrom 3))))))) := by
  simp [enumQ, List.flatMap_cons, levelsFrom_zero, List.append_assoc]

theorem enumQ_append_children (e : FsEntry) (d : Nat)
    (rest : List (FsEntry × Nat)) (h : d < 3) :
    enumQ (rest ++ (subdirsOf e.entries).map (fun c => (c, d + 1))) =
      rest.flatMap (levelsFrom 0) ++
        (levelsFrom 1 (e, d) ++ (rest.flatMap (levelsFrom 1) ++
          (levelsFrom 2 (e, d) ++ (rest.flatMap (levelsFrom 2) ++
            (levelsFrom 3 (e, d) ++ rest.flatMap (levelsFrom 3)))))) := by
  have h1 : ∀ k, ((subdirsOf e.entries).map (fun c => (c, d + 1))).flatMap
      (levelsFrom k) =
      (subdirsOf e.entries).flatMap (fun c => levelsFrom k (c, d + 1)) :=
    fun k => List.flatMap_map _ _ _
  have h4 : (subdirsOf e.entries).flatMap
      (fun c => levelsFrom 3 (c, d + 1)) = [] :=
    flatMap_nil_of_forall _ _
      (fun c => levelsFrom_deep_nil 2 c (d + 1) (by omega))
  rw [levelsFrom_succ_lt 0 e d h, levelsFrom_succ_lt 1 e d h,
    levelsFrom_succ_lt 2 e d h]
  simp only [enumQ, List.flatMap_append, h1 0, h1 1, h1 2, h1 3, h4,
    List.append_nil, List.append_assoc]

theorem bfsLoop_eq_find (q : List (FsEntry × Nat)) :
    bfsLoop q = (enumQ q).find? (fun e => hasMarkers e.entries) := by
  match q with
  | [] => simp [bfsLoop, enumQ]
  | (e, d) :: rest =>
    rw [bfsLoop, enumQ_cons]
    by_cases hm : hasMarkers e.entries = true
    · rw [if_pos hm, @List.find?_cons_of_pos _ (fun x => hasMarkers x.entries) e _ hm]
    · rw [if_neg hm, @List.find?_cons_of_neg _ (fun x => hasMarkers x.entries) e _ hm]
      by_cases hd : 3 ≤ d
      · rw [if_pos hd, levelsFrom_succ_ge 0 e d hd, levelsFrom_succ_ge 1 e d hd,
          levelsFrom_succ_ge 2 e d hd]
        simp only [List.nil_append]
        rw [bfsLoop_eq_find rest]
        simp [enumQ, List.append_assoc]
      · rw [if_neg hd,
          bfsLoop_eq_find (rest ++ (subdirsOf e.entries).map (fun c => (c, d + 1))),
          enumQ_append_children e d rest (by omega)]
termination_by qSize q
decreasing_by
  · simp only [qSize_cons]
    have h1 := subdirs_size_lt e
    omega
  · simp only [qSize_cons, qSize_append_mapped]
    have h1 := subdirs_size_lt e
    omega

/-- Claim C4: for every extracted template tree, root discovery returns the
first directory carrying all three marker entries (Assets, Packages,
ProjectSettings) in the breadth-first, depth-bounded (0-3), left-to-right
candidate enumeration `bfsEnum` — hence the shallowest match, with ties
broken left to right — with `__MACOSX` subtrees excluded from the search
(see `subdirsOf`), and the top-level extraction directory as fallback when no
candidate matches. -/
theorem C4_root_discovery (root : FsEntry) :
    findUnityRoot root =
      ((bfsEnum root).find? (fun e => hasMarkers e.entries)).getD root := by
  unfold findUnityRoot bfsEnum
  by_cases hm : hasMarkers root.entries = true
  · rw [if_pos hm, enumQ_cons, @List.find?_cons_of_pos _ (fun x => hasMarkers x.entries) root _ hm]
    rfl
  · rw [if_neg hm, bfsLoop_eq_find]
    cases (enumQ [(root, 0)]).find? (fun e => hasMarkers e.entries) with
    | none => rfl
    | some u => rfl

theorem cancelBuild_terminal (uid : String) (p : Project) (h : Bool)
    (hown : p.ownerId = uid)
    (hst : p.status = Status.ready ∨ p.status = Status.failed) :
    cancelBuild uid p h =
      .ok { project := p, returnedStatus := p.status, killedProcess := false } := by
  unfold cancelBuild
  rw [if_neg (by simp [hown])]
  rcases hst with hst | hst <;> rw [hst] <;> rfl

theorem cancelBuild_active (uid : String) (p : Project) (h : Bool)
    (hown : p.ownerId = uid)
    (hst : p.status = Status.queued ∨ p.status = Status.running) :
    cancelBuild uid p h =
      .ok { project :=
              { p with status := Status.failed, error := some "Cancelled by user" },
            returnedStatus := Status.failed, killedProcess := h } := by
  unfold cancelBuild
  rw [if_neg (by simp [hown])]
  rcases hst with hst | hst <;> rw [hst] <;> rfl

theorem rebuild_eq_android (uid : String) (p : Project)
    (hown : p.ownerId = uid) (ht : isAndroidApkTarget p.buildTarget = true) :
    rebuild uid p =
      .ok { p with
              status := Status.queued
              error := none
              resultStorageKey := none
              androidApkStorageKey := none } := by
  unfold rebuild
  rw [if_neg (by simp [hown])]
  simp only [ht, if_true]

theorem rebuild_eq_web (uid : String) (p : Project)
    (hown : p.ownerId = uid) (ht : isAndroidApkTarget p.buildTarget = false) :
    rebuild uid p =
      .ok { p with
              status := Status.queued
              error := none
              resultStorageKey := none
              webglIndexStorageKey := none
              webglZipStorageKey := none } := by
  unfold rebuild
  rw [if_neg (by simp [hown])]
  simp only [ht, Bool.false_eq_true, if_false]

/-- Claim C6: cancel on a job in a terminal status (`ready`/`failed`) is a
no-op returning success with the unchanged status and killing nothing;
cancel on a `queued`/`running` job marks it failed with the fixed
cancellation marker `Cancelled by user` and kills the registered live
process handle exactly when one exists (`hasHandle`). -/
theorem C6_cancel_semantics (uid : String) (p : Project) (hasHandle : Bool)
    (hown : p.ownerId = uid) :
    ((p.status = Status.ready ∨ p.status = Status.failed) →
      cancelBuild uid p hasHandle =
        .ok { project := p, returnedStatus := p.status, killedProcess := false }) ∧
    ((p.status = Status.queued ∨ p.status = Status.running) →
      cancelBuild uid p hasHandle =
        .ok { project :=
                { p with
                    status := Status.failed
                    error := some "Cancelled by user" },
              returnedStatus := Status.failed, killedProcess := hasHandle }) :=
  ⟨fun hst => cancelBuild_terminal uid p hasHandle hown hst,
   fun hst => cancelBuild_active uid p hasHandle hown hst⟩

theorem C6_cancel_semantics_witness :
    pReadyWeb.ownerId = "u1" ∧
    cancelBuild "u1" pReadyWeb true =
      .ok { project := pReadyWeb, returnedStatus := Status.ready,
            killedProcess := false } ∧
    cancelBuild "u1" pRunningWeb true =
      .ok { project :=
              { pRunningWeb with
                  status := Status.failed
                  error := some "Cancelled by user" },
            returnedStatus := Status.failed, killedProcess := true } :=
  ⟨rfl,
   (C6_cancel_semantics "u1" pReadyWeb true rfl).1 (Or.inl rfl),
   (C6_cancel_semantics "u1" pRunningWeb true rfl).2 (Or.inr rfl)⟩

/-- Claim C8: rebuild resets the job to `queued`, clears the error and the
result references of the effective build target (together with the shared
generic `resultStorageKey`), and leaves the result references of the other
build target untouched — so a job previously built for one target and
rebuilt for another retains the artifact references of the first target. -/
theorem C8_rebuild_preserves_other_target (uid : String) (p : Project)
    (hown : p.ownerId = uid) :
    ∃ q, rebuild uid p = .ok q ∧
      q.status = Status.queued ∧ q.error = none ∧ q.resultStorageKey = none ∧
      (isAndroidApkTarget p.buildTarget = true →
        q.androidApkStorageKey = none ∧
        q.webglZipStorageKey = p.webglZipStorageKey ∧
        q.webglIndexStorageKey = p.webglIndexStorageKey) ∧
      (isAndroidApkTarget p.buildTarget = false →
        q.webglZipStorageKey = none ∧ q.webglIndexStorageKey = none ∧
        q.androidApkStorageKey = p.androidApkStorageKey) := by
  by_cases ht : isAndroidApkTarget p.buildTarget = true
  · exact ⟨_, rebuild_eq_android uid p hown ht, rfl, rfl, rfl,
      fun _ => ⟨rfl, rfl, rfl⟩, fun hf => absurd ht (by simp [hf])⟩
  · exact ⟨_, rebuild_eq_web uid p hown (by simpa using ht), rfl, rfl, rfl,
      fun htt => absurd htt ht, fun _ => ⟨rfl, rfl, rfl⟩⟩

theorem C8_rebuild_preserves_other_target_witness :
    pWebBuiltAndroidTarget.ownerId = "u1" ∧
    (∃ q, rebuild "u1" pWebBuiltAndroidTarget = .ok q ∧
      q.status = Status.queued ∧ q.error = none ∧ q.resultStorageKey = none ∧
      (isAndroidApkTarget pWebBuiltAndroidTarget.buildTarget = true →
        q.androidApkStorageKey = none ∧
        q.webglZipStorageKey = pWebBuiltAndroidTarget.webglZipStorageKey ∧
        q.webglIndexStorageKey = pWebBuiltAndroidTarget.webglIndexStorageKey) ∧
      (isAndroidApkTarget pWebBuiltAndroidTarget.buildTarget = false →
        q.webglZipStorageKey = none ∧ q.webglIndexStorageKey = none ∧
        q.androidApkStorageKey = pWebBuiltAndroidTarget.androidApkStorageKey)) :=
  ⟨rfl, C8_rebuild_preserves_other_target "u1" pWebBuiltAndroidTarget rfl⟩

/-- Counterexample to claim C3: `rebuild` performs no status check, so it
moves even a `running` job straight back to `queued` — the transition the
claim declares impossible. -/
theorem C3_counterexample :
    pRunningWeb.status = Status.running ∧
    rebuild "u1" pRunningWeb =
      .ok { pRunningWeb with
              status := Status.queued
              error := none
              resultStorageKey := none
              webglIndexStorageKey := none
              webglZipStorageKey := none } := by
  constructor
  · rfl
  · rfl

/-- Claim C1 (code bug, evaluated at the failing input): when the primary
build invocation succeeds but the `capture_media` invocation of the external
tool exits non-zero, the rejection propagates to the top-level catch of
`runBuild` and the job is marked failed with the capture error — although the
spec, and the source comment of the `upload_media` block (media
capture/upload is best-effort; do not fail the build), require the
media-capture pipeline never to fail the job. By contrast a failure of the
frame-to-video encoding or of media publication (the guarded `upload_media`
block) is swallowed and the job still reaches ready. -/
theorem C1_capture_failure_fails_job :
    ((runBuildGo { envHappy with capture := .error captureFailMsg }
        pQueuedWeb).1.status = Status.failed ∧
      (runBuildGo { envHappy with capture := .error captureFailMsg }
        pQueuedWeb).1.error = some captureFailMsg) ∧
    (runBuildGo envHappy pQueuedWeb).1.status = Status.ready ∧
    (runBuildGo
        { envHappy with
            mediaOutcome := .error "ffmpeg exited with code 1. Output tail: x" }
        pQueuedWeb).1.status = Status.ready := by
  decide

/-- Counterexample to claim C5: the magic-byte and entry-count validation
exists only in `uploadTemplate`; `runBuild` saves `status = running` before
touching the archive, so a build whose stored template archive is malformed
reaches `running` and then fails — the claim says such a job never reaches
`running`. -/
theorem C5_counterexample :
    validateTemplateArchive badMagicZip =
      .error (.badRequest "Invalid zip file. Expected a .zip archive.") ∧
    (runBuildGo { envHappy with extractOk := false }
      pQueuedWeb).2.reachedRunning = true ∧
    (runBuildGo { envHappy with extractOk := false }
      pQueuedWeb).1.status = Status.failed := by
  decide

/-- Claim C5 (amended): archive validation (zip magic bytes, at least one
entry) happens at template upload, where it raises an immediate
caller-visible error before any storage or sandbox work; build submission
performs no archive validation — `runBuild` marks the job running first and
extracts afterwards, so a build over a malformed stored archive reaches
`running` and then fails with the extraction error. -/
theorem C5_amended :
    (∀ z : UploadedZip,
      (z.bytes.length < 4 ∨ z.bytes.get? 0 ≠ some 0x50 ∨
        z.bytes.get? 1 ≠ some 0x4b) →
      validateTemplateArchive z =
        .error (.badRequest "Invalid zip file. Expected a .zip archive.")) ∧
    (∀ z : UploadedZip,
      ¬ (z.bytes.length < 4 ∨ z.bytes.get? 0 ≠ some 0x50 ∨
        z.bytes.get? 1 ≠ some 0x4b) →
      (¬ z.parseOk = true ∨ z.numEntries = 0) →
      validateTemplateArchive z =
        .error (.badRequest "Invalid or unsupported zip format")) ∧
    (∀ (env : RunEnv) (p : Project),
      env.templateExists = true → env.extractOk = false →
      (runBuildGo env p).2.reachedRunning = true ∧
      (runBuildGo env p).1.status = Status.failed ∧
      (runBuildGo env p).1.error = some "Invalid or unsupported zip format") := by
  refine ⟨?_, ?_, ?_⟩
  · intro z h
    unfold validateTemplateArchive
    rw [if_pos h]
  · intro z h1 h2
    unfold validateTemplateArchive
    rw [if_neg h1, if_pos h2]
  · intro env p h1 h2
    unfold runBuildGo
    simp [h1, h2, failWith]

theorem C5_amended_witness :
    (badMagicZip.bytes.length < 4 ∨ badMagicZip.bytes.get? 0 ≠ some 0x50 ∨
      badMagicZip.bytes.get? 1 ≠ some 0x4b) ∧
    validateTemplateArchive badMagicZip =
      .error (.badRequest "Invalid zip file. Expected a .zip archive.") ∧
    ((runBuildGo { envHappy with extractOk := false }
        pQueuedWeb).2.reachedRunning = true ∧
      (runBuildGo { envHappy with extractOk := false }
        pQueuedWeb).1.status = Status.failed ∧
      (runBuildGo { envHappy with extractOk := false }
        pQueuedWeb).1.error = some "Invalid or unsupported zip format") :=
  ⟨by decide,
   C5_amended.1 badMagicZip (by decide),
   C5_amended.2.2 { envHappy with extractOk := false } pQueuedWeb rfl rfl⟩

/-- Claim C9: the cache restore copy runs exactly when a cache entry exists
for the sanitized template key and the sandbox Library directory does not
already exist; the cache save copy runs only after the primary build (and
the capture invocation) succeeded; and the job outcome (final document,
status, error) is entirely independent of cache existence and of
restore/save copy failures — cache absence or cache errors never fail a
build. -/
theorem C9_cache_best_effort :
    (∀ (env : RunEnv) (p : Project),
      env.templateExists = true → env.extractOk = true →
      (runBuildGo env p).2.restoreAttempted =
        (env.cacheEntryExists && !env.sandboxLibraryExists)) ∧
    (∀ (env : RunEnv) (p : Project),
      (runBuildGo env p).2.saveAttempted = true →
      env.primaryBuild = .ok () ∧ env.capture = .ok ()) ∧
    (∀ (env : RunEnv) (p : Project) (c1 c2 c3 c4 c5 : Bool),
      (runBuildGo { env with
          cacheEntryExists := c1
          sandboxLibraryExists := c2
          restoreCopyFails := c3
          libraryExistsAfterBuild := c4
          saveCopyFails := c5 } p).1 = (runBuildGo env p).1) := by
  refine ⟨?_, ?_, ?_⟩
  · intro env p h1 h2
    unfold runBuildGo
    repeat' split
    all_goals simp_all
  · intro env p h
    unfold runBuildGo at h
    repeat' split at h
    all_goals simp_all
  · intro env p c1 c2 c3 c4 c5
    unfold runBuildGo
    repeat' split
    all_goals first | rfl | simp_all

theorem C9_cache_best_effort_witness :
    (runBuildGo { envHappy with cacheEntryExists := true }
        pQueuedWeb).2.restoreAttempted = true ∧
    ((runBuildGo envHappy pQueuedWeb).2.saveAttempted = true →
      envHappy.primaryBuild = .ok () ∧ envHappy.capture = .ok ()) ∧
    (runBuildGo { envHappy with
        cacheEntryExists := true
        sandboxLibraryExists := false
        restoreCopyFails := true
        libraryExistsAfterBuild := false
        saveCopyFails := true } pQueuedWeb).1 =
      (runBuildGo envHappy pQueuedWeb).1 :=
  ⟨by
    rw [C9_cache_best_effort.1 { envHappy with cacheEntryExists := true }
      pQueuedWeb rfl rfl]
    decide,
   C9_cache_best_effort.2.1 envHappy pQueuedWeb,
   C9_cache_best_effort.2.2 envHappy pQueuedWeb true false true false true⟩

/-- Claim C3 (amended): the pipeline itself only moves a job forward —
`runBuild` marks it running and ends in ready or failed; cancel moves only
queued/running jobs to failed with the fixed marker `Cancelled by user` and
is a no-op otherwise; but rebuild is not restricted to the terminal states:
it moves a job of any status, including running and queued, back to queued
(the source performs no status check). -/
theorem C3_amended :
    (∀ (env : RunEnv) (p : Project),
      (runBuildGo env p).2.reachedRunning = true ∧
      ((runBuildGo env p).1.status = Status.ready ∨
        (runBuildGo env p).1.status = Status.failed)) ∧
    (∀ (uid : String) (p : Project) (h : Bool), p.ownerId = uid →
      ((p.status = Status.ready ∨ p.status = Status.failed) →
        cancelBuild uid p h =
          .ok { project := p, returnedStatus := p.status,
                killedProcess := false }) ∧
      ((p.status = Status.queued ∨ p.status = Status.running) →
        cancelBuild uid p h =
          .ok { project :=
                  { p with
                      status := Status.failed
                      error := some "Cancelled by user" },
                returnedStatus := Status.failed, killedProcess := h })) ∧
    (∀ (uid : String) (p : Project), p.ownerId = uid →
      ∃ q, rebuild uid p = .ok q ∧ q.status = Status.queued ∧
        q.error = none) := by
  refine ⟨?_, ?_, ?_⟩
  · intro env p
    unfold runBuildGo
    repeat' split
    all_goals simp [failWith]
  · intro uid p h hown
    exact ⟨cancelBuild_terminal uid p h hown, cancelBuild_active uid p h hown⟩
  · intro uid p hown
    by_cases ht : isAndroidApkTarget p.buildTarget = true
    · exact ⟨_, rebuild_eq_android uid p hown ht, rfl, rfl⟩
    · exact ⟨_, rebuild_eq_web uid p hown (by simpa using ht), rfl, rfl⟩

theorem C3_amended_witness :
    pRunningWeb.ownerId = "u1" ∧ pRunningWeb.status = Status.running ∧
    (∃ q, rebuild "u1" pRunningWeb = .ok q ∧ q.status = Status.queued ∧
      q.error = none) ∧
    cancelBuild "u1" pRunningWeb true =
      .ok { project :=
              { pRunningWeb with
                  status := Status.failed
                  error := some "Cancelled by user" },
            returnedStatus := Status.failed, killedProcess := true } :=
  ⟨rfl, rfl,
   C3_amended.2.2 "u1" pRunningWeb rfl,
   (C3_amended.2.1 "u1" pRunningWeb true rfl).2 (Or.inr rfl)⟩

theorem jsOrOptStr_truthy (a b : Option String) (h : truthyStr a = true) :
    jsOrOptStr a b = a := by
  cases a with
  | none => simp [truthyStr] at h
  | some s =>
    have hne : ¬ s = "" := by simpa [truthyStr] using h
    simp [jsOrOptStr, hne]

theorem jsOrOptStr_falsy (a b : Option String) (h : truthyStr a = false) :
    jsOrOptStr a b = b := by
  cases a with
  | none => rfl
  | some s =>
    have he : s = "" := by simpa [truthyStr] using h
    simp [jsOrOptStr, he]

/-- Claim C10: a download URL request fails with `Project not ready` unless
the status is exactly `ready`; when ready, the request succeeds with the
chosen key exactly when that key is truthy and fails with
`Artifact not available` otherwise; and the chosen key for the native
(android) and web targets is the target-specific key when truthy, with the
generic `resultStorageKey` as fallback — so requesting the native artifact
of a web-built job can yield the web archive. -/
theorem C10_download_url (uid : String) (p : Project) (target : Option String)
    (hown : p.ownerId = uid) :
    (p.status ≠ Status.ready →
      getDownloadUrl uid p target = .error (.badRequest "Project not ready")) ∧
    (p.status = Status.ready →
      (truthyStr (desiredKey p target) = true →
        getDownloadUrl uid p target = .ok ((desiredKey p target).getD "")) ∧
      (truthyStr (desiredKey p target) = false →
        getDownloadUrl uid p target =
          .error (.badRequest "Artifact not available"))) ∧
    ((asciiLower (jsTrim (target.getD "")) = "android_apk" ∨
      asciiLower (jsTrim (target.getD "")) = "android") →
      (truthyStr p.androidApkStorageKey = true →
        desiredKey p target = p.androidApkStorageKey) ∧
      (truthyStr p.androidApkStorageKey = false →
        desiredKey p target = p.resultStorageKey)) ∧
    (asciiLower (jsTrim (target.getD "")) = "webgl" →
      (truthyStr p.webglZipStorageKey = true →
        desiredKey p target = p.webglZipStorageKey) ∧
      (truthyStr p.webglZipStorageKey = false →
        desiredKey p target = p.resultStorageKey)) := by
  refine ⟨?_, ?_, ?_, ?_⟩
  · intro hst
    unfold getDownloadUrl
    rw [if_neg (by simp [hown]), if_pos hst]
  · intro hst
    constructor
    · intro h
      unfold getDownloadUrl
      rw [if_neg (by simp [hown]), if_neg (by simp [hst])]
      simp [h]
    · intro h
      unfold getDownloadUrl
      rw [if_neg (by simp [hown]), if_neg (by simp [hst])]
      simp [h]
  · intro htgt
    constructor
    · intro h
      unfold desiredKey
      rw [if_pos htgt]
      exact jsOrOptStr_truthy _ _ h
    · intro h
      unfold desiredKey
      rw [if_pos htgt]
      exact jsOrOptStr_falsy _ _ h
  · intro htgt
    have hne : ¬ (asciiLower (jsTrim (target.getD "")) = "android_apk" ∨
        asciiLower (jsTrim (target.getD "")) = "android") := by
      simp [htgt]
    constructor
    · intro h
      unfold desiredKey
      rw [if_neg hne, if_pos htgt]
      exact jsOrOptStr_truthy _ _ h
    · intro h
      unfold desiredKey
      rw [if_neg hne, if_pos htgt]
      exact jsOrOptStr_falsy _ _ h

theorem C10_download_url_witness :
    pReadyWeb.ownerId = "u1" ∧ pReadyWeb.status = Status.ready ∧
    pReadyWeb.androidApkStorageKey = none ∧
    desiredKey pReadyWeb (some "android_apk") = pReadyWeb.resultStorageKey ∧
    getDownloadUrl "u1" pReadyWeb (some "android_apk") = .ok "p1.zip" :=
  ⟨rfl, rfl, rfl,
   (C10_download_url "u1" pReadyWeb (some "android_apk") rfl).2.2.1
     (by decide) |>.2 rfl,
   by
    have h := ((C10_download_url "u1" pReadyWeb (some "android_apk")
      rfl).2.1 rfl).1 (by decide)
    simpa using h⟩

theorem asciiUpperChar_hex (c : Char) (h : isHexDigitChar c = true) :
    List.contains
      ['0', '5', 'A', 'D', '1', '6', 'B', 'E', '2', '7',
       'C', 'F', '3', '8', '4', '9'] (asciiUpperChar c) = true := by
  have h2 : c ∈ hexDigitChars := by simpa [isHexDigitChar] using h
  fin_cases h2 <;> rfl

theorem hexColorTest_spec (s : String) (h : hexColorTest s = true) :
    ∃ rest, s.data = '#' :: rest ∧ rest.length = 6 ∧
      rest.all isHexDigitChar = true := by
  unfold hexColorTest at h
  split at h
  · next rest heq =>
    rw [Bool.and_eq_true, decide_eq_true_eq] at h
    exact ⟨rest, heq, h.1, h.2⟩
  · exact absurd h (by simp)

theorem normHex_valid (v : Option String) (s : String)
    (h : normHex v = some s) : isUpperHexColor s = true := by
  have key : ∀ t : String,
      (if hexColorTest t then some (asciiUpper t) else none) = some s →
      isUpperHexColor s = true := by
    intro t ht
    split at ht
    · next hTest =>
      injection ht with h2
      obtain ⟨rest, hdata, hlen, hall⟩ := hexColorTest_spec t hTest
      subst h2
      unfold isUpperHexColor asciiUpper
      simp only [hdata, List.map_cons]
      show ((rest.map asciiUpperChar).length = 6 &&
        (rest.map asciiUpperChar).all _) = true
      rw [Bool.and_eq_true, decide_eq_true_eq]
      refine ⟨by simpa using hlen, ?_⟩
      rw [List.all_map]
      rw [List.all_eq_true] at hall ⊢
      intro c hc
      exact asciiUpperChar_hex c (hall c hc)
    · exact absurd ht (by simp)
  unfold normHex at h
  cases v with
  | none => exact absurd h (by simp)
  | some v0 =>
    dsimp only at h
    split at h
    · exact absurd h (by simp)
    · split at h
      · exact key _ h
      · exact key _ h

theorem numOk_some {v : Option Rat} {lo hi x : Rat}
    (hv : v = some x) (h : numOk v lo hi = true) : lo ≤ x ∧ x ≤ hi := by
  subst hv
  simpa [numOk, Bool.and_eq_true, decide_eq_true_eq] using h

theorem hexOk_some {v : Option String} {s : String}
    (hv : v = some s) (h : hexOk v = true) : isHexColorLib s = true := by
  subst hv
  simpa [hexOk] using h

theorem arrOk_some {v : Option (List String)} {xs : List String} {n : Nat}
    (hv : v = some xs) (h : arrOk v n = true) : xs.length ≤ n := by
  subst hv
  simpa [arrOk, decide_eq_true_eq] using h

/-- Counterexample to claim C2: the request body whose only config field is
`primaryColor: "#ab12cd"` satisfies every `CreateProjectAiDto` decorator —
the library hex-color check is case-insensitive — so the global
`ValidationPipe` accepts it and it reaches `createFromAi`, which stores the
caller's raw string verbatim: the stored color is lowercase, so neither a
valid uppercase `#RRGGBB` nor the documented fallback `#22C55E`. -/
theorem C2_counterexample :
    aiCreateEndpoint CfgBag.empty dtoLowerHex CfgBag.empty =
      some (aiCreateStored CfgBag.empty dtoLowerHex CfgBag.empty) ∧
    (aiCreateStored CfgBag.empty dtoLowerHex CfgBag.empty).primaryColor =
      some "#ab12cd" ∧
    isUpperHexColor "#ab12cd" = false ∧
    ("#ab12cd" : String) ≠ "#22C55E" := by
  refine ⟨by decide, by decide, by decide, by decide⟩

/-- Claim C2 (amended): the public interface accepts a config-override bag
only when it satisfies the shared DTO decorators (`dtoFieldsOk`), rejecting
every other body with HTTP 400. Numerics are range-checked rather than
clamped, and an accepted numeric is stored verbatim — hence within its
documented range — on both the AI-creation and the update path; `mechanics`
is capped at 12 entries on both paths; on the update path every stored
color is either the previous value or a valid uppercase `#RRGGBB`; on the
AI-creation path an accepted color need only pass the permissive library
hex check (optional hash, 3/4/6/8 hex digits, either case) and is stored
verbatim, without case normalization or fallback substitution. -/
theorem C2_amended :
    ∀ (d rc unityCfg : CfgBag) (cur : AiUnityConfig),
      dtoFieldsOk d = true →
      aiCreateEndpoint rc d unityCfg =
        some (aiCreateStored rc d unityCfg) ∧
      updateEndpoint d (some cur) =
        some (updateProjectAiConfig d (some cur)) ∧
      (∀ x, d.timeScale = some x → ratHalf ≤ x ∧ x ≤ 2 ∧
        (aiCreateStored rc d unityCfg).timeScale = some x ∧
        (applyAiUpdate d cur).timeScale = some x) ∧
      (∀ x, d.difficulty = some x → (0 : Rat) ≤ x ∧ x ≤ 1 ∧
        (aiCreateStored rc d unityCfg).difficulty = some x ∧
        (applyAiUpdate d cur).difficulty = some x) ∧
      (∀ x, d.speed = some x → (0 : Rat) ≤ x ∧ x ≤ 20 ∧
        (aiCreateStored rc d unityCfg).speed = some x ∧
        (applyAiUpdate d cur).speed = some x) ∧
      (∀ x, d.fogDensity = some x → (0 : Rat) ≤ x ∧ x ≤ ratTenth ∧
        (aiCreateStored rc d unityCfg).fogDensity = some x ∧
        (applyAiUpdate d cur).fogDensity = some x) ∧
      (∀ x, d.cameraZoom = some x → (1 : Rat) ≤ x ∧ x ≤ 30 ∧
        (aiCreateStored rc d unityCfg).cameraZoom = some x ∧
        (applyAiUpdate d cur).cameraZoom = some x) ∧
      (∀ x, d.gravityY = some x → (-50 : Rat) ≤ x ∧ x ≤ 0 ∧
        (aiCreateStored rc d unityCfg).gravityY = some x ∧
        (applyAiUpdate d cur).gravityY = some x) ∧
      (∀ x, d.jumpForce = some x → (0 : Rat) ≤ x ∧ x ≤ 50 ∧
        (aiCreateStored rc d unityCfg).jumpForce = some x ∧
        (applyAiUpdate d cur).jumpForce = some x) ∧
      (∀ s, d.primaryColor = some s → isHexColorLib s = true ∧
        (aiCreateStored rc d unityCfg).primaryColor = some s) ∧
      (∀ s, d.secondaryColor = some s → isHexColorLib s = true ∧
        (aiCreateStored rc d unityCfg).secondaryColor = some s) ∧
      (∀ s, d.accentColor = some s → isHexColorLib s = true ∧
        (aiCreateStored rc d unityCfg).accentColor = some s) ∧
      (∀ s, d.playerColor = some s → isHexColorLib s = true ∧
        (aiCreateStored rc d unityCfg).playerColor = some s) ∧
      (∀ ms, d.mechanics = some ms → ms.length ≤ 12 ∧
        (aiCreateStored rc d unityCfg).mechanics = some ms) ∧
      ((applyAiUpdate d cur).primaryColor = cur.primaryColor ∨
        ∃ s, (applyAiUpdate d cur).primaryColor = some s ∧
          isUpperHexColor s = true) ∧
      ((applyAiUpdate d cur).secondaryColor = cur.secondaryColor ∨
        ∃ s, (applyAiUpdate d cur).secondaryColor = some s ∧
          isUpperHexColor s = true) ∧
      ((applyAiUpdate d cur).accentColor = cur.accentColor ∨
        ∃ s, (applyAiUpdate d cur).accentColor = some s ∧
          isUpperHexColor s = true) ∧
      ((applyAiUpdate d cur).playerColor = cur.playerColor ∨
        ∃ s, (applyAiUpdate d cur).playerColor = some s ∧
          isUpperHexColor s = true) ∧
      ((applyAiUpdate d cur).mechanics = cur.mechanics ∨
        ∃ ms, (applyAiUpdate d cur).mechanics = some ms ∧
          ms.length ≤ 12) := by
  intro d rc unityCfg cur h
  have hb := h
  unfold dtoFieldsOk at hb
  simp only [Bool.and_eq_true] at hb
  obtain ⟨hts, hdf, hth, hno, hsp, hge, hat, hme, hpc, hsc2, hac, hplc,
    hfd, hcz, hgy, hjf⟩ := hb
  have hcol : ∀ (v c : Option String),
      updField (normHex v) c = c ∨
        ∃ s, updField (normHex v) c = some s ∧ isUpperHexColor s = true := by
    intro v c
    cases hv : normHex v with
    | none => exact Or.inl rfl
    | some s => exact Or.inr ⟨s, rfl, normHex_valid v s hv⟩
  refine ⟨by simp [aiCreateEndpoint, h], by simp [updateEndpoint, h],
    ?_, ?_, ?_, ?_, ?_, ?_, ?_, ?_, ?_, ?_, ?_, ?_,
    hcol d.primaryColor cur.primaryColor,
    hcol d.secondaryColor cur.secondaryColor,
    hcol d.accentColor cur.accentColor,
    hcol d.playerColor cur.playerColor,
    ?_⟩
  · intro x hx
    obtain ⟨h1, h2⟩ := numOk_some hx hts
    refine ⟨h1, h2, ?_, ?_⟩
    · show some (pickCfg d.timeScale unityCfg.timeScale 1) = some x
      rw [hx]
      rfl
    · show updField d.timeScale cur.timeScale = some x
      rw [hx]
      rfl
  · intro x hx
    obtain ⟨h1, h2⟩ := numOk_some hx hdf
    refine ⟨h1, h2, ?_, ?_⟩
    · show some (pickCfg d.difficulty unityCfg.difficulty ratHalf) = some x
      rw [hx]
      rfl
    · show updField d.difficulty cur.difficulty = some x
      rw [hx]
      rfl
  · intro x hx
    obtain ⟨h1, h2⟩ := numOk_some hx hsp
    refine ⟨h1, h2, ?_, ?_⟩
    · show some (pickCfg d.speed unityCfg.speed 5) = some x
      rw [hx]
      rfl
    · show updField d.speed cur.speed = some x
      rw [hx]
      rfl
  · intro x hx
    obtain ⟨h1, h2⟩ := numOk_some hx hfd
    refine ⟨h1, h2, ?_, ?_⟩
    · show updField d.fogDensity unityCfg.fogDensity = some x
      rw [hx]
      rfl
    · show updField d.fogDensity cur.fogDensity = some x
      rw [hx]
      rfl
  · intro x hx
    obtain ⟨h1, h2⟩ := numOk_some hx hcz
    refine ⟨h1, h2, ?_, ?_⟩
    · show updField d.cameraZoom unityCfg.cameraZoom = some x
      rw [hx]
      rfl
    · show updField d.cameraZoom cur.cameraZoom = some x
      rw [hx]
      rfl
  · intro x hx
    obtain ⟨h1, h2⟩ := numOk_some hx hgy
    refine ⟨h1, h2, ?_, ?_⟩
    · show updField d.gravityY unityCfg.gravityY = some x
      rw [hx]
      rfl
    · show updField d.gravityY cur.gravityY = some x
      rw [hx]
      rfl
  · intro x hx
    obtain ⟨h1, h2⟩ := numOk_some hx hjf
    refine ⟨h1, h2, ?_, ?_⟩
    · show updField d.jumpForce unityCfg.jumpForce = some x
      rw [hx]
      rfl
    · show updField d.jumpForce cur.jumpForce = some x
      rw [hx]
      rfl
  · intro s hs
    refine ⟨hexOk_some hs hpc, ?_⟩
    show some (pickCfg d.primaryColor unityCfg.primaryColor "#22C55E") =
      some s
    rw [hs]
    rfl
  · intro s hs
    refine ⟨hexOk_some hs hsc2, ?_⟩
    show some (pickCfg d.secondaryColor unityCfg.secondaryColor "#3B82F6") =
      some s
    rw [hs]
    rfl
  · intro s hs
    refine ⟨hexOk_some hs hac, ?_⟩
    show some (pickCfg d.accentColor unityCfg.accentColor "#F59E0B") =
      some s
    rw [hs]
    rfl
  · intro s hs
    refine ⟨hexOk_some hs hplc, ?_⟩
    show updField d.playerColor unityCfg.playerColor = some s
    rw [hs]
    rfl
  · intro ms hm
    refine ⟨arrOk_some hm hme, ?_⟩
    show updField d.mechanics unityCfg.mechanics = some ms
    rw [hm]
    rfl
  · cases hm2 : d.mechanics with
    | none =>
      left
      simp [applyAiUpdate, hm2, updField]
    | some ms0 =>
      right
      refine ⟨((ms0.map jsTrim).filter (fun m => 0 < m.length)).take 12,
        ?_, ?_⟩
      · simp [applyAiUpdate, hm2, updField]
      · rw [List.length_take]
        exact min_le_left _ _

theorem C2_amended_witness :
    aiCreateEndpoint CfgBag.empty dtoWit CfgBag.empty =
      some (aiCreateStored CfgBag.empty dtoWit CfgBag.empty) ∧
    (ratHalf ≤ 1 ∧ (1 : Rat) ≤ 2) ∧
    (aiCreateStored CfgBag.empty dtoWit CfgBag.empty).timeScale = some 1 ∧
    isHexColorLib "ab12cd" = true ∧
    (aiCreateStored CfgBag.empty dtoWit CfgBag.empty).primaryColor =
      some "ab12cd" ∧
    ((applyAiUpdate dtoWit AiUnityConfig.empty).primaryColor =
        AiUnityConfig.empty.primaryColor ∨
      ∃ s, (applyAiUpdate dtoWit AiUnityConfig.empty).primaryColor =
        some s ∧ isUpperHexColor s = true) ∧
    ((applyAiUpdate dtoWit AiUnityConfig.empty).mechanics =
        AiUnityConfig.empty.mechanics ∨
      ∃ ms, (applyAiUpdate dtoWit AiUnityConfig.empty).mechanics =
        some ms ∧ ms.length ≤ 12) := by
  obtain ⟨hep, hup, hts, hdf, hsp, hfd, hcz, hgy, hjf, hpc, hsc2, hac,
    hplc, hme, hupc, husc, huac, huplc, hume⟩ :=
    C2_amended dtoWit CfgBag.empty CfgBag.empty AiUnityConfig.empty
      (by decide)
  have h1 := hts 1 rfl
  have h2 := hpc "ab12cd" rfl
  exact ⟨hep, ⟨h1.1, h1.2.1⟩, h1.2.2.1, h2.1, h2.2, hupc, hume⟩

set_option maxRecDepth 10000

theorem dropWhile_length_le (p : Char → Bool) (l : List Char) :
    (l.dropWhile p).length ≤ l.length := by
  induction l with
  | nil => simp
  | cons c cs ih =>
    rw [List.dropWhile_cons]
    split
    · exact Nat.le_succ_of_le ih
    · exact Nat.le_refl _

theorem trimChars_length_le (cs : List Char) :
    (trimChars cs).length ≤ cs.length := by
  unfold trimChars
  rw [List.length_reverse]
  calc ((cs.dropWhile Char.isWhitespace).reverse.dropWhile
          Char.isWhitespace).length
      ≤ (cs.dropWhile Char.isWhitespace).reverse.length :=
        dropWhile_length_le _ _
    _ = (cs.dropWhile Char.isWhitespace).length := List.length_reverse _
    _ ≤ cs.length := dropWhile_length_le _ _

theorem jsTrim_length_le (s : String) : (jsTrim s).length ≤ s.length :=
  trimChars_length_le s.data

theorem jsLastChars_length_le (s : String) (n : Nat) :
    (jsLastChars s n).length ≤ n := by
  show (s.data.drop (s.data.length - n)).length ≤ n
  rw [List.length_drop]
  omega

theorem clip_trim_le (t : String) :
    (jsTrim (if 6000 < t.length then jsLastChars t 6000 else t)).length
      ≤ 6000 := by
  split
  · next h =>
    exact Nat.le_trans (jsTrim_length_le _) (jsLastChars_length_le _ _)
  · next h =>
    exact Nat.le_trans (jsTrim_length_le _) (Nat.le_of_not_lt h)

theorem extract_length_le (out : String) :
    (extractUnityErrorSummary out).length ≤ 6000 := by
  unfold extractUnityErrorSummary
  dsimp only
  exact clip_trim_le _

/-- Counterexample to claim C7: for a killed invocation whose output is 61
short lines none of which matches any error pattern, the error carries the
pattern-branch summary made of the LAST 60 TAIL LINES (prefixed
`Error summary:`), not the raw output tail clipped to 4000 characters that
the claim promises for the no-match case — here the raw 4000-character tail
would be the whole 61-line output, which differs from what is carried. -/
theorem C7_counterexample :
    ((jsSplitLines outEx61).all (fun l => ! lineIsInteresting l)) = true ∧
    outEx61.length ≤ 4000 ∧
    closeResult none outEx61 "" =
      .error ("Unity exited with code null. Error summary:
" ++ summaryEx60) ∧
    summaryEx60 ≠ outEx61 := by
  refine ⟨by decide, by decide, by decide, by decide⟩

/-- Claim C7 (amended): every close of the supervised external process with
a non-zero or null exit code — in particular a process killed by the timeout
timer, which closes with a null code — rejects with a constructed error
message rather than hanging; the embedded summary is size-bounded (at most
6000 characters); when no line of the last-400-line tail matches a pattern
the summary is the last 60 tail lines themselves (clipped to the final 6000
characters, trimmed), and the raw output tail clipped to 4000 characters
appears instead exactly when that summary is blank. -/
theorem C7_timeout_amended :
    (∀ (code : Option Int) (stdout stderr : String), code ≠ some 0 →
      closeResult code stdout stderr =
        .error (unityExitErrorMessage code stdout stderr)) ∧
    (∀ out : String, (extractUnityErrorSummary out).length ≤ 6000) ∧
    (∀ out : String,
      ((lastN 400 (jsSplitLines out)).filter lineIsInteresting).length = 0 →
      extractUnityErrorSummary out =
        jsTrim
          (if 6000 <
              (String.intercalate "\n"
                (lastN 60 (lastN 400 (jsSplitLines out)))).length
           then
             jsLastChars
               (String.intercalate "\n"
                 (lastN 60 (lastN 400 (jsSplitLines out)))) 6000
           else
             String.intercalate "\n"
               (lastN 60 (lastN 400 (jsSplitLines out))))) ∧
    (∀ (code : Option Int) (stdout stderr : String),
      extractUnityErrorSummary (jsOrStr stderr stdout) = "" →
      unityExitErrorMessage code stdout stderr =
        "Unity exited with code " ++ jsCodeStr code ++ ". " ++
          ("Output tail: " ++
            (if 4000 < (jsOrStr stderr stdout).length
             then jsLastChars (jsOrStr stderr stdout) 4000
             else jsOrStr stderr stdout))) ∧
    (∀ (code : Option Int) (stdout stderr : String),
      extractUnityErrorSummary (jsOrStr stderr stdout) ≠ "" →
      unityExitErrorMessage code stdout stderr =
        "Unity exited with code " ++ jsCodeStr code ++ ". " ++
          ("Error summary:\n" ++
            extractUnityErrorSummary (jsOrStr stderr stdout))) := by
  refine ⟨?_, ?_, ?_, ?_, ?_⟩
  · intro code so se h
    unfold closeResult
    rw [if_neg h]
  · exact extract_length_le
  · intro out h
    unfold extractUnityErrorSummary
    dsimp only
    rw [h]
    simp
  · intro code so se h
    unfold unityExitErrorMessage
    dsimp only
    simp [h]
  · intro code so se h
    unfold unityExitErrorMessage
    dsimp only
    simp [h]

theorem C7_timeout_amended_witness :
    closeResult none outEx61 "" =
      .error (unityExitErrorMessage none outEx61 "") ∧
    (extractUnityErrorSummary outEx61).length ≤ 6000 ∧
    ((lastN 400 (jsSplitLines outEx61)).filter lineIsInteresting).length
      = 0 ∧
    extractUnityErrorSummary (jsOrStr "" "") = "" ∧
    unityExitErrorMessage (some 1) "" "" =
      "Unity exited with code " ++ jsCodeStr (some 1) ++ ". " ++
        ("Output tail: " ++
          (if 4000 < (jsOrStr "" "").length
           then jsLastChars (jsOrStr "" "") 4000
           else jsOrStr "" "")) ∧
    extractUnityErrorSummary (jsOrStr "" outEx61) ≠ "" ∧
    unityExitErrorMessage none outEx61 "" =
      "Unity exited with code null. " ++
        ("Error summary:\n" ++ extractUnityErrorSummary (jsOrStr "" outEx61)) :=
  ⟨C7_timeout_amended.1 none outEx61 "" (by decide),
   C7_timeout_amended.2.1 outEx61,
   by decide,
   by decide,
   C7_timeout_amended.2.2.2.1 (some 1) "" "" (by decide),
   by decide,
   C7_timeout_amended.2.2.2.2 none outEx61 "" (by decide)⟩

end GameForge